import Mathlib

/-
Verification of the key-path resolution engine of the Arm reference
platforms configuration database (class `Database` in
src/arm-reference-platforms/5518.armplat_1901.py, method `lookup`).

The embedding is a direct transcription of the Python code:
  * strings are lists of characters (`Str`),
  * a document / aggregate is an insertion-ordered association list
    (`Agg`), mirroring a Python `dict` (lookup takes the first match,
    update replaces in place or appends),
  * `lookupF` mirrors `Database.lookup` with an explicit fuel
    parameter standing for the (unbounded) Python recursion and the
    `while` loop; `Err.fuelOut` marks computations that the Python
    code would continue (possibly forever),
  * each `script.abort` call site is mapped to a distinct `Err`
    constructor following the specification's error taxonomy,
  * `Err.typeErr` marks the places where the Python code would raise
    an uncaught `TypeError` (`str.replace` with a non-string argument).
-/

namespace ArmPlatDb

abbrev Str := List Char

/-- Values stored in the database: strings, mappings (Python dicts),
sequences (Python lists), booleans and `null` (Python `None`). -/
inductive V where
  | str (s : Str)
  | vmap (entries : List (Str × V))
  | seq (items : List V)
  | vbool (b : Bool)
  | null

abbrev Agg := List (Str × V)

/-- Error taxonomy; each constructor corresponds to one `script.abort`
call site of `Database.lookup` (plus `typeErr` for the implicit
`TypeError` of `str.replace`, and `fuelOut` for non-termination). -/
inductive Err where
  | notFound
  | malformed
  | selfRef
  | nonTerminating
  | invalidContext
  | typeErr
  | fuelOut

/-- Python dict read: first matching key (keys are unique in a dict). -/
def aget : Agg → Str → Option V
  | [], _ => none
  | (k, v) :: rest, key => if k = key then some v else aget rest key

/-- Python `d.update({k: v})`: replace in place if present, else append. -/
def aset : Agg → Str → V → Agg
  | [], key, val => [(key, val)]
  | (k, v) :: rest, key, val =>
    if k = key then (k, val) :: rest else (k, v) :: aset rest key val

/-- Python `assimilate`: `d.update({k: v})` for each item of `src` in order. -/
def aupdateAll (d : Agg) (src : Agg) : Agg :=
  src.foldl (fun acc kv => aset acc kv.1 kv.2) d

/-- Python `key.split(".")` (splitting on a single-character separator). -/
def splitDot : Str → List Str
  | [] => [[]]
  | c :: cs =>
    match splitDot cs with
    | h :: t => if c = '.' then [] :: h :: t else (c :: h) :: t
    | [] => [[]]

/-- Index of the first occurrence of a character (Python `str.find`,
with `none` for the `-1` case). -/
def fidx : Str → Char → Option Nat
  | [], _ => none
  | c :: cs, t => if c = t then some 0 else (fidx cs t).map (fun i => i + 1)

/-- Number of occurrences of a character (Python `str.count`). -/
def cnt (c : Char) : Str → Nat
  | [] => 0
  | x :: xs => (if x = c then 1 else 0) + cnt c xs

/-- Strip `pat` from the front of a string, if it is there. -/
def dropPre : Str → Str → Option Str
  | [], s => some s
  | _ :: _, [] => none
  | p :: ps, c :: cs => if p = c then dropPre ps cs else none

/-- One left-to-right pass replacing every non-overlapping occurrence
of a non-empty pattern (the core of Python `str.replace`); the fuel is
seeded with the string length, which always suffices. -/
def replFuel : Nat → Str → Str → Str → Str
  | 0, _, _, s => s
  | f + 1, pat, new, s =>
    match s with
    | [] => []
    | c :: cs =>
      match dropPre pat (c :: cs) with
      | some rest => new ++ replFuel f pat new rest
      | none => c :: replFuel f pat new cs

/-- Python `s.replace("", new)`: `new` is inserted at every position. -/
def emptyIns (new : Str) (s : Str) : Str :=
  new ++ s.foldr (fun c acc => c :: (new ++ acc)) []

/-- Python `s.replace(old, new)` (replaces ALL occurrences; the code
relies on this in its substitution loop). -/
def pyReplace (s old new : Str) : Str :=
  match old with
  | [] => emptyIns new s
  | _ :: _ => replFuel s.length old new s

def hasAt : Str → Bool
  | [] => false
  | c :: cs => c = '@' || hasAt cs

/-- Python `subPlat`: `k.replace("@", plat) if "@" in k else k`; a
`TypeError` (no `plat` supplied) aborts with Invalid-context. -/
def subPlat (k : Str) (plat : Option Str) : Except Err Str :=
  if hasAt k then
    match plat with
    | some p => Except.ok (pyReplace k ['@'] p)
    | none => Except.error Err.invalidContext
  else Except.ok k

def headIsHash : Str → Bool
  | '#' :: _ => true
  | _ => false

/-- The string `"\x7b" ++ key ++ "\x7d"` of the Python check
`f"{\x7bkey\x7d}" == item` (the self-reference guard). -/
def selfTemplate (key : Str) : Str :=
  '\x7b' :: (key ++ ['\x7d'])

def nullLit : Str := ("null").data
def trueLit : Str := ("true").data

/-- Cross-reference handling inside the walk: if the item is a string
starting with `#` whose brace counts are both exactly 1, resolve the
text between the braces by a nested lookup against the current
aggregate `d` (Python lines 1177-1180). -/
def structuralStep (recLk : Agg → Str → Except Err V) (d : Agg) (it : V) :
    Except Err V :=
  match it with
  | V.str s =>
    if headIsHash s then
      if cnt '\x7b' s = cnt '\x7d' s ∧ cnt '\x7d' s = 1 then
        match fidx s '\x7b', fidx s '\x7d' with
        | some l, some r => recLk d ((s.take r).drop (l + 1))
        | _, _ => Except.ok (V.str s)
      else Except.ok (V.str s)
    else Except.ok (V.str s)
  | _ => Except.ok it

/-- The `for k in subPlat(key).split(".")` walk of `Database.lookup`
(lines 1170-1185): resolve each segment against the current nesting
level first, else against the aggregate `d`; `None` breaks; a mapping
item is assimilated into `d` and becomes the new nesting level. -/
def walkAux (recLk : Agg → Str → Except Err V) :
    Agg → Agg → List Str → Except Err (Option V × Agg)
  | d, _, [] => Except.ok (none, d)
  | d, lvl, k :: ks =>
    match (match aget lvl k with | some v => some v | none => aget d k) with
    | none => Except.ok (none, d)
    | some V.null => Except.ok (none, d)
    | some item0 =>
      match structuralStep recLk d item0 with
      | Except.error e => Except.error e
      | Except.ok item1 =>
        match item1 with
        | V.vmap m =>
          match ks with
          | [] => Except.ok (some (V.vmap m), aupdateAll d m)
          | _ :: _ => walkAux recLk (aupdateAll d m) m ks
        | it =>
          match ks with
          | [] => Except.ok (some it, d)
          | _ :: _ => walkAux recLk d lvl ks

/-- The `while "\x7b" in item` substitution loop of `Database.lookup`
(lines 1201-1217): find the first brace pair, resolve the enclosed
key path with a nested lookup against the aggregate (`recL`), replace
the token; if the text did not change, retry once against the root
database (`recR`, Python `dblu`), and fail with Non-terminating
reference if that also changes nothing. -/
def substAux (recL recR : Str → Except Err V) : Nat → Str → Except Err Str
  | fuel, s =>
    match fidx s '\x7b' with
    | none => Except.ok s
    | some l =>
      match fuel with
      | 0 => Except.error Err.fuelOut
      | m + 1 =>
        let sr : Str × Str :=
          match fidx s '\x7d' with
          | some r => ((s.take r).drop (l + 1), (s.take (r + 1)).drop l)
          | none => ((s.take (s.length - 1)).drop (l + 1), [])
        match recL sr.1 with
        | Except.error e => Except.error e
        | Except.ok sub =>
          match sub with
          | V.str subs =>
            if pyReplace s sr.2 subs = s then
              match recR sr.1 with
              | Except.error e => Except.error e
              | Except.ok sub2 =>
                match sub2 with
                | V.str subs2 =>
                  if pyReplace s sr.2 subs2 = s then
                    Except.error Err.nonTerminating
                  else substAux recL recR m (pyReplace s sr.2 subs2)
                | _ => Except.error Err.typeErr
            else substAux recL recR m (pyReplace s sr.2 subs)
          | _ => Except.error Err.typeErr

/-- Error-propagating sequencing (an aborting nested lookup aborts the
whole call, as `script.abort` terminates the Python process). -/
def ebind : Except Err α → (α → Except Err β) → Except Err β
  | Except.error e, _ => Except.error e
  | Except.ok a, f => f a

/-- String-item post-processing of `Database.lookup` (lines 1186-1217):
self-reference guard, reserved literals, `@` substitution, brace-count
check, then the substitution loop. -/
def postStr (next : Agg → Agg → Str → Option Str → Bool → Except Err V)
    (substFuel : Nat) (root : Agg) (key : Str) (plat : Option Str)
    (nA : Bool) (d : Agg) (s : Str) : Except Err V :=
  if s = selfTemplate key then Except.error Err.selfRef
  else if s = nullLit then
    (if nA then Except.ok V.null else Except.error Err.notFound)
  else if s = trueLit then Except.ok (V.vbool true)
  else
    ebind (subPlat s plat) (fun s1 =>
      if cnt '\x7b' s1 = cnt '\x7d' s1 then
        ebind (substAux (fun k => next root d k plat false)
            (fun k => next root root k plat false) substFuel s1)
          (fun s2 => Except.ok (V.str s2))
      else Except.error Err.malformed)

/-- Dispatch on the walked-to item (strings are post-processed, `None`
falls under the absence policy, everything else is returned). -/
def postItem (next : Agg → Agg → Str → Option Str → Bool → Except Err V)
    (substFuel : Nat) (root : Agg) (key : Str) (plat : Option Str)
    (nA : Bool) (d : Agg) : V → Except Err V
  | V.str s => postStr next substFuel root key plat nA d s
  | V.null => if nA then Except.ok V.null else Except.error Err.notFound
  | v => Except.ok v

/-- Handling of the walk result: no item means the absence policy
applies (lines 1218-1221), otherwise the item is post-processed. -/
def postWalk (next : Agg → Agg → Str → Option Str → Bool → Except Err V)
    (substFuel : Nat) (root : Agg) (key : Str) (plat : Option Str)
    (nA : Bool) : Option V × Agg → Except Err V
  | (none, _) => if nA then Except.ok V.null else Except.error Err.notFound
  | (some item, d) => postItem next substFuel root key plat nA d item

/-- The body of `Database.lookup` (lines 1158-1221), parameterised by
the function `next` used for all nested lookups. `root` is the global
database `ARMPLATDB` (used by `dblu` in the retry), `self` is the
dict the method is invoked on. -/
def lookupBody (next : Agg → Agg → Str → Option Str → Bool → Except Err V)
    (substFuel : Nat) (root self : Agg) (key : Str) (plat : Option Str)
    (nA : Bool) : Except Err V :=
  ebind (subPlat key plat) (fun key' =>
    ebind (walkAux (fun d' k => next root d' k plat false)
        (aupdateAll [] self) (aupdateAll [] self) (splitDot key'))
      (postWalk next substFuel root key plat nA))

/-- `Database.lookup` with fuel: `lookupF fuel root self key plat nA`
models `Database(self).lookup(key, plat, nA)` running with global
database `root`. Nested lookups and loop iterations consume fuel;
running out yields `Err.fuelOut` (the Python code would recurse or
loop without bound there). -/
def lookupF : Nat → Agg → Agg → Str → Option Str → Bool → Except Err V
  | 0, _, _, _, _, _ => Except.error Err.fuelOut
  | n + 1, root, self, key, plat, nA => lookupBody (lookupF n) n root self key plat nA

/-- `Database.multilookup`: resolve `root + "." + k` for each key. -/
def multilookupF (fuel : Nat) (root self : Agg) (pre : Str)
    (keys : List Str) (plat : Option Str) (nA : Bool) : List (Except Err V) :=
  keys.map (fun k => lookupF fuel root self (pre ++ '.' :: k) plat nA)

/-- The inheritance example of the specification (section 8). -/
def docC1 : Agg :=
  [(("root").data, V.vmap
    [(("surname").data, V.str (("Smith").data)),
     (("john").data, V.vmap []),
     (("jane").data, V.vmap []),
     (("alexa").data, V.vmap [(("surname").data, V.str (("Smith-Doe").data))])])]

/-- C1: entering a mapping merges its own keys on top of the inherited
aggregate at every level (including the document root), and a segment
is resolved against the current nesting level first, else the
aggregate; hence john and jane inherit the root surname "Smith" while
alexa's own key shadows it with "Smith-Doe". -/
theorem inherit_shadow_c1 :
    lookupF 10 docC1 docC1 (("root.john.surname").data) none false
      = Except.ok (V.str (("Smith").data)) ∧
    lookupF 10 docC1 docC1 (("root.jane.surname").data) none false
      = Except.ok (V.str (("Smith").data)) ∧
    lookupF 10 docC1 docC1 (("root.alexa.surname").data) none false
      = Except.ok (V.str (("Smith-Doe").data)) := by
  exact ⟨rfl, rfl, rfl⟩

/-- Document for the structural-reference tests: `a.k` holds a string
that substitutes to exactly `"true"`, and `b.k` is the structural
reference `#\x7ba.k\x7d`. -/
def docC2 : Agg :=
  [(("a").data, V.vmap [(("k").data, V.str (("tru\x7bx\x7d").data))]),
   (("x").data, V.str (("e").data)),
   (("b").data, V.vmap [(("k").data, V.str (("#\x7ba.k\x7d").data))])]

/-- The aggregate `d` in scope when the walk of `docC2` for `b.k`
reaches the structural reference: root keys plus `b`'s own keys. -/
def aggC2 : Agg :=
  [(("a").data, V.vmap [(("k").data, V.str (("tru\x7bx\x7d").data))]),
   (("x").data, V.str (("e").data)),
   (("b").data, V.vmap [(("k").data, V.str (("#\x7ba.k\x7d").data))]),
   (("k").data, V.str (("#\x7ba.k\x7d").data))]

/-- Document for the structural-reference sequence example of the
specification: `a.k` is a sequence and `b.k` aliases it. -/
def docC2s : Agg :=
  [(("a").data, V.vmap [(("k").data, V.seq [V.str (("x").data), V.str (("y").data)])]),
   (("b").data, V.vmap [(("k").data, V.str (("#\x7ba.k\x7d").data))])]

/-- C2 counterexample: the nested lookup of `a.k` against the final
aggregate yields the string "true", but the overall call does not
return that result directly: the structural result flows through the
terminal post-processing, which decodes it to boolean true. -/
theorem structural_not_direct_c2 :
    lookupF 10 docC2 docC2 (("b.k").data) none false
      = Except.ok (V.vbool true) ∧
    lookupF 10 docC2 aggC2 (("a.k").data) none false
      = Except.ok (V.str (("true").data)) ∧
    (Except.ok (V.vbool true) : Except Err V) ≠ Except.ok (V.str (("true").data)) := by
  refine ⟨rfl, rfl, fun h => ?_⟩
  exact V.noConfusion (Except.ok.inj h)

/-- C2 amended: a structural reference `#\x7bX\x7d` is resolved by a
nested lookup of X against the final aggregate as a fresh document
with the same context, and the nested result then flows through the
walk's remaining handling and the terminal post-processing: a Mapping
or Sequence is returned unchanged, while a string result is further
processed (a nested "true" decodes to boolean true). -/
theorem structural_postprocess_c2 :
    lookupF 10 docC2s docC2s (("b.k").data) none false
      = Except.ok (V.seq [V.str (("x").data), V.str (("y").data)]) ∧
    lookupF 10 docC2 docC2 (("b.k").data) none false
      = Except.ok (V.vbool true) := by
  exact ⟨rfl, rfl⟩

/-- Template-substitution example document of the specification. -/
def docC3 : Agg :=
  [(("arm").data, V.vmap
    [(("release").data, V.str (("18.10").data)),
     (("url").data, V.str (("https://example.com/").data)),
     (("title").data, V.str (("Software \x7brelease\x7d").data))])]

/-- A two-token template, resolved left to right. -/
def docC3b : Agg :=
  [(("n0").data, V.str (("AAA").data)),
   (("n1").data, V.str (("111").data)),
   (("name").data, V.str (("\x7bn0\x7d-\x7bn1\x7d.zip").data))]

/-- C3: embedded templates are resolved by repeatedly taking the first
brace token, resolving it by a nested lookup against the aggregate,
and splicing in the resolved string, until no brace remains. -/
theorem template_subst_c3 :
    lookupF 10 docC3 docC3 (("arm.title").data) none false
      = Except.ok (V.str (("Software 18.10").data)) ∧
    lookupF 10 docC3b docC3b (("name").data) none false
      = Except.ok (V.str (("AAA-111.zip").data)) := by
  exact ⟨rfl, rfl⟩

/-- Reserved-literal document: values that are exactly "null" or
"true", and values merely containing them. -/
def docC7 : Agg :=
  [(("kn").data, V.str (("null").data)),
   (("kt").data, V.str (("true").data)),
   (("ke").data, V.str (("null x").data)),
   (("kf").data, V.str (("true x").data))]

/-- C7: the exact literal "null" decodes to the absence value and the
exact literal "true" decodes to boolean true; strings merely
containing the literals are returned as ordinary strings. -/
theorem reserved_literals_c7 :
    lookupF 10 docC7 docC7 (("kn").data) none true = Except.ok V.null ∧
    lookupF 10 docC7 docC7 (("kt").data) none false = Except.ok (V.vbool true) ∧
    lookupF 10 docC7 docC7 (("ke").data) none false
      = Except.ok (V.str (("null x").data)) ∧
    lookupF 10 docC7 docC7 (("kf").data) none false
      = Except.ok (V.str (("true x").data)) := by
  exact ⟨rfl, rfl, rfl, rfl⟩

/-- A template referencing a missing key. -/
def docC10m : Agg := [(("t").data, V.str (("\x7bm\x7d").data))]

/-- A template referencing a key whose value is the literal "null". -/
def docC10n : Agg :=
  [(("n").data, V.str (("null").data)),
   (("t").data, V.str (("\x7bn\x7d").data))]

/-- A structural reference to a missing key. -/
def docC10s : Agg := [(("t").data, V.str (("#\x7bm\x7d").data))]

/-- A document whose substitution loop stalls locally and whose retry
against the root database misses (the root has no "" key). -/
def docC10r : Agg :=
  [(("m").data, V.vmap
    [(([] : Str), V.str ([] : Str)),
     (("t").data, V.str (("\x7d\x7b").data))])]

/-- C10: every nested lookup (template tokens, structural references,
and the root-database retry) runs with allowAbsent = false, so an
outer call with allowAbsent = true still fails with Not-found when
the referenced key is missing or holds the literal "null". -/
theorem nested_strict_c10 :
    lookupF 10 docC10m docC10m (("t").data) none true
      = Except.error Err.notFound ∧
    lookupF 10 docC10n docC10n (("t").data) none true
      = Except.error Err.notFound ∧
    lookupF 10 docC10s docC10s (("t").data) none true
      = Except.error Err.notFound ∧
    lookupF 10 docC10r docC10r (("m.t").data) none true
      = Except.error Err.notFound := by
  exact ⟨rfl, rfl, rfl, rfl⟩

/-- A document on which one substitution pass makes no textual
progress (the value `\x7d\x7b` yields the empty token, which resolves
to the empty string) and the root-database retry stalls as well. -/
def docC4a : Agg :=
  [(([] : Str), V.str ([] : Str)),
   (("t").data, V.str (("\x7d\x7b").data))]

/-- A document on which the first substitution pass stalls against the
local aggregate (where the entered mapping overrides "" with "") but
the retry against the root database (where "" is "X") progresses. -/
def docC4b : Agg :=
  [(([] : Str), V.str (("X").data)),
   (("m").data, V.vmap
     [(([] : Str), V.str ([] : Str)),
      (("t").data, V.str (("\x7d\x7b").data))])]

/-- The aggregate in scope while substituting `m.t` of `docC4b`: the
entered mapping's own keys override the root's "" key. -/
def aggC4b : Agg :=
  [(([] : Str), V.str ([] : Str)),
   (("m").data, V.vmap
     [(([] : Str), V.str ([] : Str)),
      (("t").data, V.str (("\x7d\x7b").data))]),
   (("t").data, V.str (("\x7d\x7b").data))]

/-- C4: when a substitution pass leaves the string unchanged, the loop
retries the same token once against the full root database: if that
also makes no progress the call fails with Non-terminating-reference
(docC4a); if it does make progress, substitution continues normally
(docC4b: the local aggregate resolves the stalled token to "", the
root resolves it to "X", and the loop keeps running until fuel runs
out, mirroring the Python loop continuing). -/
theorem nonterminating_guard_c4 :
    lookupF 6 docC4a docC4a (("t").data) none false
      = Except.error Err.nonTerminating ∧
    lookupF 6 docC4b docC4b (("m.t").data) none false
      = Except.error Err.fuelOut ∧
    lookupF 5 docC4b aggC4b ([] : Str) none false
      = Except.ok (V.str ([] : Str)) ∧
    lookupF 5 docC4b docC4b ([] : Str) none false
      = Except.ok (V.str (("X").data)) ∧
    pyReplace (("\x7d\x7b").data) [] ([] : Str) = ("\x7d\x7b").data ∧
    pyReplace (("\x7d\x7b").data) [] (("X").data) ≠ ("\x7d\x7b").data := by
  refine ⟨rfl, rfl, rfl, rfl, rfl, ?_⟩
  decide

/-- Document for the self-reference counterexample: the stored string
`\x7bm.@\x7d` becomes `\x7bm.x\x7d` after `@` substitution with
context "x", which is exactly the template of the keypath `m.x`; the
inner mapping also shadows `m` so that the nested lookup terminates. -/
def docC5 : Agg :=
  [(("m").data, V.vmap
    [(("m").data, V.vmap [(("x").data, V.str (("DONE").data))]),
     (("x").data, V.str (("\x7bm.@\x7d").data))])]

/-- C5 counterexample: for keypath `m.x` with context "x" on `docC5`,
the `@`-substituted item equals the keypath's own template
`\x7bm.x\x7d` verbatim, yet the call does not fail with
Self-reference: the raw (pre-substitution) string is compared instead,
so the call proceeds into template substitution and returns "DONE". -/
theorem selfref_not_substituted_c5 :
    lookupF 10 docC5 docC5 (("m.x").data) (some (("x").data)) false
      = Except.ok (V.str (("DONE").data)) ∧
    subPlat (("\x7bm.@\x7d").data) (some (("x").data))
      = Except.ok (selfTemplate (("m.x").data)) ∧
    (Except.ok (V.str (("DONE").data)) : Except Err V)
      ≠ Except.error Err.selfRef := by
  refine ⟨rfl, rfl, fun h => ?_⟩
  exact Except.noConfusion h

/-- C5 amended: the self-reference check compares the raw stored
string, before any `@` treatment, with the template built from the
original keypath argument; when they are equal the call fails
immediately with Self-reference, for any allowAbsent flag. -/
theorem selfref_raw_template_c5 (n : Nat) (root self : Agg) (key : Str)
    (plat : Option Str) (nA : Bool) (key' : Str) (d : Agg)
    (h1 : subPlat key plat = Except.ok key')
    (h2 : walkAux (fun d' k => lookupF n root d' k plat false)
        (aupdateAll [] self) (aupdateAll [] self) (splitDot key')
        = Except.ok (some (V.str (selfTemplate key)), d)) :
    lookupF (n + 1) root self key plat nA = Except.error Err.selfRef := by
  simp only [lookupF, lookupBody, h1, ebind, h2, postWalk, postItem, postStr]
  simp

/-- Witness document for the self-reference guard: the value of `k` is
literally its own template. -/
def docW5 : Agg := [(("k").data, V.str (("\x7bk\x7d").data))]

/-- C5 witness: the amended self-reference rule at a concrete input. -/
theorem selfref_raw_template_c5_witness :
    lookupF 4 docW5 docW5 (("k").data) none false = Except.error Err.selfRef := by
  exact selfref_raw_template_c5 3 docW5 docW5 (("k").data) none false
    (("k").data) docW5 rfl rfl

/-- A value with imbalanced braces before substitution. -/
def docC6pre : Agg := [(("t").data, V.str (("ab\x7d").data))]

/-- A document whose value is balanced before substitution but whose
substitution (through the key `a\x7bb`, which contains an opening
brace) leaves an imbalanced result. -/
def docC6post : Agg :=
  [(("a\x7bb").data, V.str (("V").data)),
   (("t").data, V.str (("\x7ba\x7bb\x7dc\x7d").data))]

/-- C6 counterexample: after substitution the string `Vc\x7d` has
unequal brace counts, yet the call succeeds: the balance check runs
only once, before the substitution loop. -/
theorem brace_balance_after_c6 :
    lookupF 10 docC6post docC6post (("t").data) none false
      = Except.ok (V.str (("Vc\x7d").data)) ∧
    cnt '\x7b' (("Vc\x7d").data) ≠ cnt '\x7d' (("Vc\x7d").data) := by
  refine ⟨rfl, ?_⟩
  decide

/-- C6 amended: the brace-count balance check runs exactly once, after
`@` substitution of the item and before the substitution loop, and it
fails with Malformed-reference regardless of allowAbsent; no check
runs after substitution, so an imbalance introduced by substitution
(docC6post) is returned without error. -/
theorem brace_balance_before_c6 (aa : Bool) :
    lookupF 10 docC6pre docC6pre (("t").data) none aa
      = Except.error Err.malformed ∧
    lookupF 10 docC6post docC6post (("t").data) none aa
      = Except.ok (V.str (("Vc\x7d").data)) := by
  cases aa
  · exact ⟨rfl, rfl⟩
  · exact ⟨rfl, rfl⟩

/-- C8: when the walk terminates with no value at some segment, the
call fails with Not-found if allowAbsent is false, and returns the
absence value without error if allowAbsent is true. -/
theorem absent_policy_c8 (n : Nat) (root : Agg) (key : Str)
    (plat : Option Str) (key' : Str) (d : Agg)
    (h1 : subPlat key plat = Except.ok key')
    (h2 : walkAux (fun d' k => lookupF n root d' k plat false)
        (aupdateAll [] root) (aupdateAll [] root) (splitDot key')
        = Except.ok (none, d)) :
    lookupF (n + 1) root root key plat false = Except.error Err.notFound ∧
    lookupF (n + 1) root root key plat true = Except.ok V.null := by
  constructor
  · simp only [lookupF, lookupBody, h1, ebind, h2, postWalk]
    simp
  · simp only [lookupF, lookupBody, h1, ebind, h2, postWalk]
    simp

/-- Witness document for the absence policy: a single unrelated key. -/
def docW8 : Agg := [(("a").data, V.str (("1").data))]

/-- C8 witness: the absence policy at a concrete missing key. -/
theorem absent_policy_c8_witness :
    lookupF 4 docW8 docW8 (("b").data) none false = Except.error Err.notFound ∧
    lookupF 4 docW8 docW8 (("b").data) none true = Except.ok V.null := by
  exact absent_policy_c8 3 docW8 (("b").data) none (("b").data) docW8 rfl rfl

/-- C9: resolution is a pure, deterministic function of the database
and the call's inputs; two calls with identical arguments (and fuel)
return equal values, with no state carried between calls. -/
theorem deterministic_c9 (fuel : Nat) (root self : Agg) (key : Str)
    (plat : Option Str) (nA : Bool) (r1 r2 : Except Err V)
    (h1 : lookupF fuel root self key plat nA = r1)
    (h2 : lookupF fuel root self key plat nA = r2) : r1 = r2 := by
  exact h1.symm.trans h2

/-- C9 witness: determinism applied at a concrete lookup. -/
theorem deterministic_c9_witness :
    (Except.ok (V.str (("Smith").data)) : Except Err V)
      = Except.ok (V.str (("Smith").data)) := by
  exact deterministic_c9 10 docC1 docC1 (("root.john.surname").data) none false
    (Except.ok (V.str (("Smith").data))) (Except.ok (V.str (("Smith").data))) rfl rfl

end ArmPlatDb
